import Mathlib

/-!
Verification development for the multi-source property-listing scraper
(`working-code/scraper-5.py`, class `PropertyMarketIdentifier`).

The Python code is shallowly embedded: each site-specific extraction branch of
`scrape_properties` becomes a Lean function over a structural view of the page
tree (the outcome of each BeautifulSoup selector), exceptions become
`Except String`, the aiocache MEMORY store becomes an association list
keyed by `"{website}_{city}"` carrying the store time, and the event-loop
clock becomes an explicit `Nat` parameter.
-/

namespace Scraper

/-- A scraped listing row, as built by the dict literals in `scrape_properties`:
the three keys `owner`, `price`, `property_name`, in that insertion order. -/
structure ListingRecord where
  owner : String
  price : String
  property_name : String
deriving Repr, DecidableEq

/-- Python `zip` over three lists: truncates at the shortest argument. -/
def zip3 {α β γ : Type} : List α → List β → List γ → List (α × β × γ)
  | a :: as, b :: bs, c :: cs => (a, b, c) :: zip3 as bs cs
  | _, _, _ => []

/-- Python `str.lstrip(chars)`: removes every leading character that is a member
of the given character set (set semantics, not a substring match). -/
def pyLstrip (chars : List Char) (s : String) : String :=
  String.mk (s.data.dropWhile fun c => chars.contains c)

/-- The character set of the Python literal `"Owner: "`, as used by
`text.lstrip("Owner: ")` in the magicbricks branch. -/
def ownerStripChars : List Char := ['O', 'w', 'n', 'e', 'r', ':', ' ']

/-- Python `owner.replace("BUILDER0", "")` of the makaan branch: removes every
occurrence of the marker, scanning left to right without overlap. -/
def removeBuilderMarker : List Char → List Char
  | 'B' :: 'U' :: 'I' :: 'L' :: 'D' :: 'E' :: 'R' :: '0' :: rest => removeBuilderMarker rest
  | c :: rest => c :: removeBuilderMarker rest
  | [] => []

/-- String form of `removeBuilderMarker`. -/
def pyReplaceBuilder (s : String) : String :=
  String.mk (removeBuilderMarker s.data)

/-- Python `str.capitalize()`: first character uppercased, the rest lowercased
(used by the `logging.error` call of the except clause). -/
def pyCapitalize (s : String) : String :=
  match s.data with
  | [] => ""
  | c :: rest => String.mk (c.toUpper :: rest.map Char.toLower)

/-- Python `str.strip()`: whitespace removed from both ends (commonfloor branch). -/
def pyStrip (s : String) : String :=
  String.mk (((s.data.dropWhile Char.isWhitespace).reverse.dropWhile Char.isWhitespace).reverse)

/-- One `div.mb-srp__card__ads` node of a magicbricks listing: `name` is the
text of its inner `div.mb-srp__card__ads--name`, if that node is present
(`find` returning None makes the later `.text` access raise). -/
structure MbAd where
  name : Option String
deriving Repr, DecidableEq

/-- One magicbricks listing container (`div.mb-srp__left`), viewed through the
three selector families of the magicbricks branch. -/
structure MbListing where
  ads : List MbAd
  priceAmounts : List String
  titles : List String
deriving Repr, DecidableEq

/-- One `div.seller-info` node of a makaan listing: its own text, and the text
of its inner `a.seller-name` when present. -/
structure SellerInfo where
  text : String
  sellerName : Option String
deriving Repr, DecidableEq

/-- One `td.price` cell of a makaan listing: the texts of its `span.val` and
`span.unit` children, when present. -/
structure PriceCell where
  val : Option String
  unit : Option String
deriving Repr, DecidableEq

/-- One makaan listing container (`div.search-result-wrap`). -/
structure MkListing where
  sellerInfos : List SellerInfo
  priceCells : List PriceCell
deriving Repr, DecidableEq

/-- One commonfloor listing container (`div.snb-content-list`): the text of the
`h3.proSnbp` node, the cell texts under the `tbody` node, and the project title
reached through `div.snb-projecttile-top` then `a` then `h2`; each `Option` is
`none` when the corresponding `find` returns None, making the chained access
raise. The Python code stores the raw td node list in the `price` key; no claim
depends on the commonfloor branch, so that value is rendered with `toString`. -/
structure CfListing where
  ownerText : Option String
  tds : Option (List String)
  projectTitle : Option String
deriving Repr, DecidableEq

/-- Extraction of one magicbricks container: the `owners` list comprehension
(raising on an ads node without a name child), then `prices` and `property_names`
from their selector lists, then a positional `zip` into record dicts. -/
def mbOwnerOf (ad : MbAd) : Except String String :=
  match ad.name with
  | some t => Except.ok (pyLstrip ownerStripChars t)
  | none => Except.error "AttributeError (mb-srp card ads name missing)"

def extractMbListing (l : MbListing) : Except String (List ListingRecord) := do
  let owners ← l.ads.mapM mbOwnerOf
  let prices := l.priceAmounts
  let propertyNames := l.titles
  pure ((zip3 owners prices propertyNames).map fun t =>
    { owner := t.1, price := t.2.1, property_name := t.2.2 })

/-- The magicbricks branch body: the for loop over the listing containers,
extending `property_data_list` with each container in order; a raised exception
aborts the loop. -/
def scrapeMagicbricks (listings : List MbListing) : Except String (List ListingRecord) :=
  listings.foldlM (fun acc l => do
    let recs ← extractMbListing l
    pure (acc ++ recs)) []

/-- Extraction of one makaan container, in the evaluation order of the Python
branch: owners (never raises), price value nodes, price denominations (raising
on a cell without a unit span), price values (raising on a cell without a val
span), seller names (raising on a seller-info without a seller-name link), the
value-unit join with a space, and the final zip that removes the builder marker
from the owner and puts the currency symbol in front of the price. -/
def mkUnitOf (c : PriceCell) : Except String String :=
  match c.unit with
  | some u => Except.ok u
  | none => Except.error "AttributeError (span unit missing)"

def mkValOf (p : Option String) : Except String String :=
  match p with
  | some v => Except.ok v
  | none => Except.error "AttributeError (span val missing)"

def mkSellerNameOf (s : SellerInfo) : Except String String :=
  match s.sellerName with
  | some n => Except.ok n
  | none => Except.error "AttributeError (seller-name link missing)"

def extractMkListing (l : MkListing) : Except String (List ListingRecord) := do
  let owners := l.sellerInfos.map (·.text)
  let priceElements := l.priceCells.map (·.val)
  let priceDenominations ← l.priceCells.mapM mkUnitOf
  let prices ← priceElements.mapM mkValOf
  let sellerNames ← l.sellerInfos.mapM mkSellerNameOf
  let pricesJoined := (prices.zip priceDenominations).map fun pd => pd.1 ++ " " ++ pd.2
  pure ((zip3 owners pricesJoined sellerNames).map fun t =>
    { owner := pyReplaceBuilder t.1, price := "₹" ++ t.2.1, property_name := t.2.2 })

/-- The makaan branch body: the for loop over the listing containers. -/
def scrapeMakaan (listings : List MkListing) : Except String (List ListingRecord) :=
  listings.foldlM (fun acc l => do
    let recs ← extractMkListing l
    pure (acc ++ recs)) []

/-- Extraction of one commonfloor container, with its chain of raising
accesses; indexing `price[0]` raises IndexError on an empty cell list. -/
def extractCfListing (l : CfListing) : Except String ListingRecord := do
  let owner ← match l.ownerText with
    | some t => Except.ok (pyStrip t)
    | none => Except.error "AttributeError (h3 proSnbp missing)"
  let tds ← match l.tds with
    | some ts => Except.ok ts
    | none => Except.error "AttributeError (tbody missing)"
  if tds.isEmpty then Except.error "IndexError (price cells empty)" else
  let title ← match l.projectTitle with
    | some t => Except.ok (pyStrip t)
    | none => Except.error "AttributeError (project title chain missing)"
  pure { owner := owner, price := toString tds, property_name := title }

/-- The commonfloor branch body: appends one record per container. -/
def scrapeCommonfloor (listings : List CfListing) : Except String (List ListingRecord) :=
  listings.foldlM (fun acc l => do
    let r ← extractCfListing l
    pure (acc ++ [r])) []

/-- A fetched page body, viewed through each selector family that
`scrape_properties` may apply to it: `soup.find_all` with an unmatched class
yields the empty list, so a page carries all three views at once. -/
structure Page where
  mbListings : List MbListing
  mkListings : List MkListing
  cfListings : List CfListing
deriving Repr, DecidableEq

/-- The if/elif dispatch of `scrape_properties` on the website name; a website
matching no branch leaves `property_data_list` empty. -/
def extractRecords (website : String) (page : Page) : Except String (List ListingRecord) :=
  if website = "commonfloor" then scrapeCommonfloor page.cfListings
  else if website = "magicbricks" then scrapeMagicbricks page.mbListings
  else if website = "makaan" then scrapeMakaan page.mkListings
  else Except.ok []

/-- The aiocache MEMORY store, namespace `web_scraping`: an association list
from cache key to stored record list and store time. -/
abbrev CacheAssoc := List (String × List ListingRecord × Nat)

/-- The cache key `f"{website}_{self.city}"`. -/
def cacheKeyOf (website city : String) : String :=
  website ++ "_" ++ city

/-- The ttl passed to `cache.set` (seconds). -/
def cacheTtl : Nat := 3600

/-- Cache read: `await self.cache.get(cache_key)` returns the stored value
while its ttl has not elapsed, and None (here `none`) otherwise. -/
def cacheGet (cache : CacheAssoc) (key : String) (now : Nat) : Option (List ListingRecord) :=
  match List.lookup key cache with
  | some (v, storedAt) => if now < storedAt + cacheTtl then some v else none
  | none => none

/-- Cache write: `await self.cache.set(cache_key, data, ttl=3600)` inserts or
replaces the entry under the key with a fresh store time. -/
def cacheSet (cache : CacheAssoc) (key : String) (v : List ListingRecord) (now : Nat) : CacheAssoc :=
  (key, v, now) :: cache.filter fun e => e.1 != key

/-- Python truthiness of `cached_data` in `if cached_data:`: false for None and
for the empty list, true for a nonempty list. -/
def truthy : Option (List ListingRecord) → Bool
  | some v => !v.isEmpty
  | none => false

/-- The outcome of `await self.fetch_url(url)`: either a raised
`aiohttp.ClientError` or `asyncio.TimeoutError` (`raise_for_status` turns a
non-2xx status into a ClientResponseError, a ClientError), or the page body. -/
inductive FetchResult where
  | failure (msg : String)
  | success (page : Page)
deriving Repr, DecidableEq

/-- The observable outcome of one non-raising `scrape_properties` call: the
returned list, the cache afterwards, whether the network fetch ran, and the
`logging.error` message of the except clause when it fired. -/
structure ScrapeOk where
  records : List ListingRecord
  cache : CacheAssoc
  fetched : Bool
  logged : Option String
deriving Repr, DecidableEq

/-- The `self.base_url` dict built in `__init__`, keyed by website name. -/
def baseUrl (city : String) : List (String × String) :=
  [("magicbricks", "https://www.magicbricks.com/ready-to-move-flats-in-" ++ city ++ "-pppfs"),
   ("makaan", "https://www.makaan.com/" ++ city ++ "-residential-property/buy-property-in-" ++ city ++ "-city"),
   ("commonfloor", "https://www.commonfloor.com/" ++ city ++ "-property/projects")]

/-- The message passed to `logging.error` by the except clause. -/
def errorLogMsg (website msg : String) : String :=
  "Error scraping " ++ pyCapitalize website ++ ": " ++ msg

/-- Shallow embedding of `scrape_properties(website)`. The cache key is
computed; the cached value is returned when truthy; otherwise the try block
resolves `self.base_url[website]` (an unknown website raises KeyError, which
the except clause does not catch), performs the fetch, and on success runs the
dispatch and caches the result with ttl 3600. Only `aiohttp.ClientError` and
`asyncio.TimeoutError` are caught; they are logged and turn into a plain
empty-list return with the cache untouched. An extraction error is not caught
and propagates as `Except.error`. -/
def scrapeProperties (website city : String) (cache : CacheAssoc) (now : Nat)
    (fetch : FetchResult) : Except String ScrapeOk :=
  let cacheKey := cacheKeyOf website city
  let cachedData := cacheGet cache cacheKey now
  if truthy cachedData then
    Except.ok { records := cachedData.getD [], cache := cache, fetched := false, logged := none }
  else
    match List.lookup website (baseUrl city) with
    | none => Except.error ("KeyError: " ++ website)
    | some _ =>
      match fetch with
      | .failure msg =>
          Except.ok { records := [], cache := cache, fetched := true,
                      logged := some (errorLogMsg website msg) }
      | .success page =>
          match extractRecords website page with
          | .error e => Except.error e
          | .ok recs =>
              Except.ok { records := recs, cache := cacheSet cache cacheKey recs now,
                          fetched := true, logged := none }

/-- The sentinel expansion at the head of `scrape_properties_parallel`. -/
def expandWebsites (websites : List String) : List String :=
  if websites.contains "all" then ["magicbricks", "makaan", "commonfloor"] else websites

/-- One CSV data row as pandas `DataFrame.to_csv` renders a record whose fields
contain no character that needs quoting. -/
def recordCsvRow (r : ListingRecord) : String :=
  r.owner ++ "," ++ r.price ++ "," ++ r.property_name ++ "\n"

/-- Models `pd.DataFrame(data).to_csv(index=False)`: the header is the column
row inferred from the record keys, in dict insertion order; an empty record
list gives a frame with no columns, rendered as a single newline and no header. -/
def toCsv (data : List ListingRecord) : String :=
  if data.isEmpty then "\n"
  else "owner,price,property_name\n" ++ String.join (data.map recordCsvRow)

/-- The observable outcome of one non-raising `scrape_properties_parallel`
run: the per-source results in task order, the flattened combined list, the
messages logged by failed sources, and the text handed to the output sink. -/
structure RunOutcome where
  perSource : List ScrapeOk
  combined : List ListingRecord
  logs : List String
  csv : String
deriving Repr, DecidableEq

/-- Shallow embedding of `scrape_properties_parallel`. The sentinel is
expanded, one task per website is created and gathered; `asyncio.gather`
returns the results in task order and re-raises the first task exception,
which `mapM` over `Except` mirrors. Every task starts from the same cache
snapshot (the per-run keys are disjoint for distinct websites). The flattened
list is always handed to `save_to_csv`. -/
def scrapePropertiesParallel (websites : List String) (city : String) (cache : CacheAssoc)
    (now : Nat) (fetches : String → FetchResult) : Except String RunOutcome := do
  let websitesToScrape := expandWebsites websites
  let results ← websitesToScrape.mapM fun w => scrapeProperties w city cache now (fetches w)
  let allPropertyData := (results.map (·.records)).flatten
  pure { perSource := results, combined := allPropertyData,
         logs := results.filterMap (·.logged), csv := toCsv allPropertyData }

/-- Completion-order model of `asyncio.gather`: the schedule lists the task
indices in the order the tasks finish; each completion writes its result into
the slot of its own index. -/
def gatherSlots (tasks : List (List ListingRecord)) (sched : List Nat) :
    List (Option (List ListingRecord)) :=
  sched.foldl (fun slots i => slots.set i tasks[i]?) (List.replicate tasks.length none)

/-- What gather hands back: the slots read off in task-index order. -/
def gatherResults (tasks : List (List ListingRecord)) (sched : List Nat) :
    List (List ListingRecord) :=
  (gatherSlots tasks sched).map fun o => o.getD []

/-- The websites that have an entry in `self.base_url`. -/
def validWebsites : List String := ["magicbricks", "makaan", "commonfloor"]

/-- The truthiness test on the cached value fails: no live entry, or a live
entry holding the empty list. -/
def cacheMiss (cache : CacheAssoc) (key : String) (now : Nat) : Prop :=
  truthy (cacheGet cache key now) = false

theorem lookup_baseUrl_of_mem (website city : String) (h : website ∈ validWebsites) :
    ∃ u, List.lookup website (baseUrl city) = some u := by
  simp only [validWebsites, List.mem_cons, List.not_mem_nil, or_false] at h
  rcases h with h | h | h <;> subst h <;> exact ⟨_, rfl⟩

theorem cacheGet_set_live (cache : CacheAssoc) (key : String) (v : List ListingRecord)
    (t now : Nat) (h : now < t + cacheTtl) :
    cacheGet (cacheSet cache key v t) key now = some v := by
  simp [cacheGet, cacheSet, List.lookup, h]

theorem cacheGet_set_expired (cache : CacheAssoc) (key : String) (v : List ListingRecord)
    (t now : Nat) (h : t + cacheTtl ≤ now) :
    cacheGet (cacheSet cache key v t) key now = none := by
  simp [cacheGet, cacheSet, List.lookup, Nat.not_lt_of_le h]

theorem scrapeProperties_hit (website city : String) (cache : CacheAssoc) (now : Nat)
    (fetch : FetchResult) (v : List ListingRecord)
    (hget : cacheGet cache (cacheKeyOf website city) now = some v) (hv : v ≠ []) :
    scrapeProperties website city cache now fetch
      = Except.ok { records := v, cache := cache, fetched := false, logged := none } := by
  unfold scrapeProperties
  simp [hget, truthy, hv]

theorem scrapeProperties_failure (website city : String) (cache : CacheAssoc) (now : Nat)
    (msg : String) (hw : website ∈ validWebsites)
    (hmiss : cacheMiss cache (cacheKeyOf website city) now) :
    scrapeProperties website city cache now (.failure msg)
      = Except.ok { records := [], cache := cache, fetched := true,
                    logged := some (errorLogMsg website msg) } := by
  obtain ⟨u, hu⟩ := lookup_baseUrl_of_mem website city hw
  unfold scrapeProperties
  simp [cacheMiss] at hmiss
  simp [hmiss, hu]

theorem scrapeProperties_success (website city : String) (cache : CacheAssoc) (now : Nat)
    (page : Page) (d : List ListingRecord) (hw : website ∈ validWebsites)
    (hmiss : cacheMiss cache (cacheKeyOf website city) now)
    (hex : extractRecords website page = .ok d) :
    scrapeProperties website city cache now (.success page)
      = Except.ok { records := d, cache := cacheSet cache (cacheKeyOf website city) d now,
                    fetched := true, logged := none } := by
  obtain ⟨u, hu⟩ := lookup_baseUrl_of_mem website city hw
  unfold scrapeProperties
  simp [cacheMiss] at hmiss
  simp [hmiss, hu, hex]

theorem scrapeProperties_raise (website city : String) (cache : CacheAssoc) (now : Nat)
    (page : Page) (e : String) (hw : website ∈ validWebsites)
    (hmiss : cacheMiss cache (cacheKeyOf website city) now)
    (hex : extractRecords website page = .error e) :
    scrapeProperties website city cache now (.success page) = .error e := by
  obtain ⟨u, hu⟩ := lookup_baseUrl_of_mem website city hw
  unfold scrapeProperties
  simp [cacheMiss] at hmiss
  simp [hmiss, hu, hex]

theorem getElem?_foldl_set (tasks : List (List ListingRecord)) (sched : List Nat) :
    ∀ (slots : List (Option (List ListingRecord))) (j : Nat),
      (sched.foldl (fun s i => s.set i tasks[i]?) slots)[j]?
        = if j ∈ sched ∧ j < slots.length then some tasks[j]? else slots[j]? := by
  induction sched with
  | nil => intro slots j; simp
  | cons i rest ih =>
    intro slots j
    rw [List.foldl_cons, ih, List.length_set]
    by_cases h1 : j ∈ rest ∧ j < slots.length
    · simp [h1, List.mem_cons, h1.1, h1.2]
    · rw [if_neg h1]
      by_cases hlen : j < slots.length
      · have hr : j ∉ rest := fun hj => h1 ⟨hj, hlen⟩
        by_cases hij : i = j
        · subst hij
          simp [List.getElem?_set, hlen, List.mem_cons]
        · have hji : ¬j = i := fun h => hij h.symm
          simp [List.getElem?_set, hij, hji, List.mem_cons, hr, hlen]
      · have hnone : slots[j]? = none := List.getElem?_eq_none (Nat.le_of_not_lt hlen)
        rw [if_neg fun hc => hlen hc.2]
        rcases eq_or_ne i j with hij | hij
        · subst hij; simp [List.getElem?_set, hlen, hnone]
        · simp [List.getElem?_set, hij, hnone]

theorem gatherResults_eq (tasks : List (List ListingRecord)) (sched : List Nat)
    (h : ∀ i, i < tasks.length → i ∈ sched) : gatherResults tasks sched = tasks := by
  apply List.ext_getElem?
  intro n
  rw [gatherResults, List.getElem?_map, gatherSlots, getElem?_foldl_set, List.length_replicate]
  by_cases hn : n < tasks.length
  · rw [if_pos ⟨h n hn, hn⟩, List.getElem?_eq_getElem hn]
    simp
  · rw [if_neg fun hc => hn hc.2, List.getElem?_replicate]
    simp [hn, List.getElem?_eq_none (Nat.le_of_not_lt hn)]

theorem mapM_ok_forall₂ {α β : Type} {f : α → Except String β} :
    ∀ {ws : List α} {rs : List β}, ws.mapM f = .ok rs →
      List.Forall₂ (fun w r => f w = .ok r) ws rs := by
  intro ws
  induction ws with
  | nil => intro rs h; rw [List.mapM_nil] at h; cases h; exact List.Forall₂.nil
  | cons a l ih =>
    intro rs h
    rw [List.mapM_cons] at h
    cases hfa : f a with
    | error e => rw [hfa] at h; simp [Bind.bind, Except.bind] at h
    | ok x =>
      rw [hfa] at h
      cases hml : l.mapM f with
      | error e => rw [hml] at h; simp [Bind.bind, Except.bind] at h
      | ok xs =>
        rw [hml] at h
        simp only [Bind.bind, Except.bind, Pure.pure, Except.pure, Except.ok.injEq] at h
        cases h
        exact List.Forall₂.cons hfa (ih hml)

theorem mapM_ok_of_forall_ok {α β : Type} (f : α → Except String β) :
    ∀ (ls : List α), (∀ x ∈ ls, ∃ y, f x = .ok y) → ∃ os, ls.mapM f = .ok os := by
  intro ls
  induction ls with
  | nil => intro _; exact ⟨[], List.mapM_nil f⟩
  | cons a l ih =>
    intro h
    obtain ⟨y, hy⟩ := h a (List.mem_cons_self a l)
    obtain ⟨os, hos⟩ := ih fun x hx => h x (List.mem_cons_of_mem a hx)
    refine ⟨y :: os, ?_⟩
    rw [List.mapM_cons, hy, hos]
    rfl

theorem foldlM_extend_eq {α : Type} (ex : α → Except String (List ListingRecord)) :
    ∀ (ls : List α) (acc : List ListingRecord),
      (ls.foldlM (fun acc l => do
        let recs ← ex l
        pure (acc ++ recs)) acc)
        = (ls.mapM ex).map fun xss => acc ++ xss.flatten := by
  intro ls
  induction ls with
  | nil =>
    intro acc
    rw [List.mapM_nil]
    show Except.ok acc = Except.ok (acc ++ List.flatten [])
    rw [List.flatten_nil, List.append_nil]
  | cons a l ih =>
    intro acc
    rw [List.foldlM_cons, List.mapM_cons]
    cases ha : ex a with
    | error e => rfl
    | ok recs =>
      show List.foldlM _ (acc ++ recs) l = _
      rw [ih (acc ++ recs)]
      cases hl : l.mapM ex with
      | error e => rfl
      | ok xss =>
        show Except.ok ((acc ++ recs) ++ xss.flatten)
          = Except.ok (acc ++ (recs ++ xss.flatten))
        rw [List.append_assoc]

theorem scrapeMagicbricks_eq (ls : List MbListing) :
    scrapeMagicbricks ls = (ls.mapM extractMbListing).map List.flatten := by
  rw [scrapeMagicbricks, foldlM_extend_eq]
  rfl

theorem scrapeMakaan_eq (ls : List MkListing) :
    scrapeMakaan ls = (ls.mapM extractMkListing).map List.flatten := by
  rw [scrapeMakaan, foldlM_extend_eq]
  rfl

theorem mapM_flatten_skip {α : Type} (ex : α → Except String (List ListingRecord))
    (l1 l2 : List α) (c : α) (hc : ex c = .ok []) :
    ((l1 ++ c :: l2).mapM ex).map List.flatten = ((l1 ++ l2).mapM ex).map List.flatten := by
  rw [List.mapM_append, List.mapM_append, List.mapM_cons, hc]
  cases h1 : l1.mapM ex with
  | error e => simp [Bind.bind, Except.bind]
  | ok xs1 =>
    cases h2 : l2.mapM ex with
    | error e => simp [Bind.bind, Except.bind]
    | ok xs2 =>
      simp [Bind.bind, Except.bind, Pure.pure, Except.pure, Except.map]

theorem zip3_nil_mid {α β γ : Type} (a : List α) (c : List γ) :
    zip3 a ([] : List β) c = [] := by
  cases a <;> rfl

theorem zip3_nil_right {α β γ : Type} (a : List α) (b : List β) :
    zip3 a b ([] : List γ) = [] := by
  cases a <;> cases b <;> rfl

/-- The magicbricks per-container extraction raises on no input shape of the
container when every ads node carries a name child. -/
theorem extractMbListing_ok (c : MbListing) (hads : ∀ ad ∈ c.ads, ad.name.isSome) :
    ∃ os, extractMbListing c
      = .ok ((zip3 os c.priceAmounts c.titles).map fun t =>
          { owner := t.1, price := t.2.1, property_name := t.2.2 }) := by
  obtain ⟨os, hos⟩ := mapM_ok_of_forall_ok mbOwnerOf c.ads fun ad had => by
    obtain ⟨t, ht⟩ := Option.isSome_iff_exists.mp (hads ad had)
    exact ⟨pyLstrip ownerStripChars t, by rw [mbOwnerOf, ht]⟩
  refine ⟨os, ?_⟩
  rw [extractMbListing, hos]
  rfl

/-- A magicbricks container with one of the three selector families empty
yields no record, provided its ads nodes are well-formed (otherwise the
comprehension raises before the zip). -/
theorem extractMbListing_empty (c : MbListing) (hads : ∀ ad ∈ c.ads, ad.name.isSome)
    (h : c.ads = [] ∨ c.priceAmounts = [] ∨ c.titles = []) :
    extractMbListing c = .ok [] := by
  rcases h with h | h | h
  · rw [extractMbListing, h, List.mapM_nil]
    rfl
  · obtain ⟨os, hos⟩ := extractMbListing_ok c hads
    rw [hos, h, zip3_nil_mid, List.map_nil]
  · obtain ⟨os, hos⟩ := extractMbListing_ok c hads
    rw [hos, h, zip3_nil_right, List.map_nil]

theorem exceptBind_ok {α β : Type} (a : α) (k : α → Except String β) :
    (Except.ok a >>= k) = k a := rfl

theorem exceptBind_error {α β : Type} (e : String) (k : α → Except String β) :
    ((Except.error e : Except String α) >>= k) = Except.error e := rfl

theorem exceptPureBind {α β : Type} (a : α) (k : α → Except String β) :
    ((pure a : Except String α) >>= k) = k a := rfl

theorem extractMkListing_sellerless (c : MkListing) (h : c.sellerInfos = [])
    (hcells : ∀ cell ∈ c.priceCells, cell.val.isSome ∧ cell.unit.isSome) :
    extractMkListing c = .ok [] := by
  obtain ⟨ds, hds⟩ := mapM_ok_of_forall_ok mkUnitOf c.priceCells fun cell hc => by
    obtain ⟨u, hu⟩ := Option.isSome_iff_exists.mp (hcells cell hc).2
    exact ⟨u, by rw [mkUnitOf, hu]⟩
  obtain ⟨vs, hvs⟩ := mapM_ok_of_forall_ok mkValOf (c.priceCells.map (·.val)) fun p hp => by
    obtain ⟨cell, hc, rfl⟩ := List.mem_map.mp hp
    obtain ⟨v, hv⟩ := Option.isSome_iff_exists.mp (hcells cell hc).1
    exact ⟨v, by rw [hv]; rfl⟩
  simp only [extractMkListing, hds, exceptBind_ok, hvs, h, List.mapM_nil]
  rfl

theorem extractMkListing_cellless (c : MkListing) (h : c.priceCells = [])
    (hsellers : ∀ s ∈ c.sellerInfos, s.sellerName.isSome) :
    extractMkListing c = .ok [] := by
  obtain ⟨ns, hns⟩ := mapM_ok_of_forall_ok mkSellerNameOf c.sellerInfos fun s hs => by
    obtain ⟨n, hn⟩ := Option.isSome_iff_exists.mp (hsellers s hs)
    exact ⟨n, by rw [mkSellerNameOf, hn]⟩
  simp only [extractMkListing, h, List.map_nil, List.mapM_nil, exceptPureBind,
    exceptBind_ok, hns]
  simp only [List.zip_nil_left, List.map_nil, zip3_nil_mid]
  rfl

theorem extractRecords_magicbricks (page : Page) :
    extractRecords "magicbricks" page = scrapeMagicbricks page.mbListings := rfl

theorem extractRecords_makaan (page : Page) :
    extractRecords "makaan" page = scrapeMakaan page.mkListings := rfl

/-- Inversion for a non-raising call that went past the cache test: the fetch
ran, and the call either hit the except clause (empty list, cache untouched)
or stored its extraction result. -/
theorem scrapeProperties_miss_inv (website city : String) (cache : CacheAssoc) (now : Nat)
    (fetch : FetchResult) (r : ScrapeOk)
    (hmiss : cacheMiss cache (cacheKeyOf website city) now)
    (h : scrapeProperties website city cache now fetch = .ok r) :
    r.fetched = true ∧ (r.records = [] ∧ r.cache = cache
      ∨ r.cache = cacheSet cache (cacheKeyOf website city) r.records now) := by
  simp only [cacheMiss] at hmiss
  unfold scrapeProperties at h
  simp only [hmiss, Bool.false_eq_true, if_false] at h
  cases hlk : List.lookup website (baseUrl city) with
  | none => rw [hlk] at h; exact absurd h (by simp)
  | some u =>
    rw [hlk] at h
    cases fetch with
    | failure msg =>
      dsimp only at h
      simp only [Except.ok.injEq] at h
      subst h
      exact ⟨rfl, Or.inl ⟨rfl, rfl⟩⟩
    | success page =>
      dsimp only at h
      cases hex : extractRecords website page with
      | error e => rw [hex] at h; exact absurd h (by simp)
      | ok d =>
        rw [hex] at h
        simp only [Except.ok.injEq] at h
        subst h
        exact ⟨rfl, Or.inr rfl⟩

/-- Inversion for a non-raising run: the gathered per-source results exist and
every output field is computed from them. -/
theorem runParallel_ok_inv (websites : List String) (city : String) (cache : CacheAssoc)
    (now : Nat) (fetches : String → FetchResult) (out : RunOutcome)
    (h : scrapePropertiesParallel websites city cache now fetches = .ok out) :
    ∃ results,
      ((expandWebsites websites).mapM fun w => scrapeProperties w city cache now (fetches w))
        = .ok results
      ∧ out = { perSource := results, combined := (results.map (·.records)).flatten,
                logs := results.filterMap (·.logged),
                csv := toCsv ((results.map (·.records)).flatten) } := by
  simp only [scrapePropertiesParallel] at h
  cases hm : (expandWebsites websites).mapM
      (fun w => scrapeProperties w city cache now (fetches w)) with
  | error e =>
    rw [hm, exceptBind_error] at h
    exact absurd h (by simp)
  | ok results =>
    rw [hm, exceptBind_ok] at h
    refine ⟨results, rfl, ?_⟩
    simp only [Pure.pure, Except.pure, Except.ok.injEq] at h
    exact h.symm

/-- When every requested source misses the cache and fails its fetch, every
task still resolves, each with an empty record list. -/
theorem mapM_scrape_all_fail (city : String) (cache : CacheAssoc) (now : Nat)
    (fetches : String → FetchResult) :
    ∀ (ws : List String),
      (∀ w ∈ ws, w ∈ validWebsites) →
      (∀ w ∈ ws, cacheMiss cache (cacheKeyOf w city) now) →
      (∀ w ∈ ws, ∃ m, fetches w = .failure m) →
      ∃ results,
        (ws.mapM fun w => scrapeProperties w city cache now (fetches w)) = .ok results
        ∧ ∀ r ∈ results, r.records = [] := by
  intro ws
  induction ws with
  | nil => intro _ _ _; exact ⟨[], List.mapM_nil _, by simp⟩
  | cons a l ih =>
    intro hv hm hf
    obtain ⟨m, hma⟩ := hf a (List.mem_cons_self a l)
    obtain ⟨results, hres, hall⟩ := ih
      (fun w hw => hv w (List.mem_cons_of_mem a hw))
      (fun w hw => hm w (List.mem_cons_of_mem a hw))
      (fun w hw => hf w (List.mem_cons_of_mem a hw))
    have ha : scrapeProperties a city cache now (fetches a)
        = .ok { records := [], cache := cache, fetched := true,
                logged := some (errorLogMsg a m) } := by
      rw [hma]
      exact scrapeProperties_failure a city cache now m
        (hv a (List.mem_cons_self a l)) (hm a (List.mem_cons_self a l))
    refine ⟨{ records := [], cache := cache, fetched := true,
              logged := some (errorLogMsg a m) } :: results, ?_, ?_⟩
    · rw [List.mapM_cons, ha, exceptBind_ok, hres, exceptBind_ok]
      rfl
    · intro r hr
      rcases List.mem_cons.mp hr with hr | hr
      · rw [hr]
      · exact hall r hr

theorem flatten_nil_of_all_nil (rs : List ScrapeOk) (h : ∀ r ∈ rs, r.records = []) :
    (rs.map (·.records)).flatten = [] := by
  induction rs with
  | nil => rfl
  | cons a l ih =>
    rw [List.map_cons, List.flatten_cons, h a (List.mem_cons_self a l),
      List.nil_append]
    exact ih fun r hr => h r (List.mem_cons_of_mem a hr)

/-- A magicbricks listing with one complete owner, price and title triple. -/
def mbGoodListing : MbListing := ⟨[⟨some "Owner: Jane"⟩], ["₹50 Lac"], ["Sunrise Apts"]⟩

/-- The record that `mbGoodListing` produces. -/
def mbGoodRec : ListingRecord := ⟨"Jane", "₹50 Lac", "Sunrise Apts"⟩

/-- A page whose magicbricks view holds exactly `mbGoodListing`. -/
def mbGoodPage : Page := ⟨[mbGoodListing], [], []⟩

/-- A magicbricks listing whose price selector matches nothing. -/
def mbNoPriceListing : MbListing := ⟨[⟨some "Owner: Sam"⟩], [], ["Lake View"]⟩

/-- A makaan listing with one complete triple; its owner text carries the
builder marker. -/
def mkGoodListing : MkListing := ⟨[⟨"Acme BUILDER0", some "Acme Homes"⟩], [⟨some "75", some "Lac"⟩]⟩

/-- The record that `mkGoodListing` produces. -/
def mkGoodRec : ListingRecord := ⟨"Acme ", "₹75 Lac", "Acme Homes"⟩

/-- A page whose makaan view holds exactly `mkGoodListing`. -/
def mkGoodPage : Page := ⟨[], [mkGoodListing], []⟩

/-- A makaan listing whose price selector matches nothing. -/
def mkNoCellsListing : MkListing := ⟨[⟨"Beta Corp", some "Beta Towers"⟩], []⟩

/-- A makaan listing whose price cell lacks the unit span. -/
def mkBadUnitListing : MkListing := ⟨[⟨"Seller One", some "Seller Homes"⟩], [⟨some "50", none⟩]⟩

/-- A page whose makaan view holds exactly `mkBadUnitListing`. -/
def mkBadUnitPage : Page := ⟨[], [mkBadUnitListing], []⟩

/-- A makaan listing whose price cell lacks the val span. -/
def mkBadValListing : MkListing := ⟨[⟨"Seller Two", some "Tower Homes"⟩], [⟨none, some "Cr"⟩]⟩

/-- A page with no listing container in any view. -/
def emptyPage : Page := ⟨[], [], []⟩

/-- C1, counterexample: on a makaan page whose price cell lacks the unit span,
the adapter raises during extraction and `scrape_properties` does not convert
the exception into a per-source failed outcome: the call itself errors, and the
orchestrator `scrape_properties_parallel` receives the unhandled fault. This
refutes the claim that such exceptions are caught at the fetch-and-cache
boundary. -/
theorem C1_counterexample :
    scrapeProperties "makaan" "pune" [] 0 (.success mkBadUnitPage)
      = .error "AttributeError (span unit missing)"
    ∧ scrapePropertiesParallel ["makaan"] "pune" [] 0 (fun _ => .success mkBadUnitPage)
      = .error "AttributeError (span unit missing)" := ⟨rfl, rfl⟩

/-- C1, amended: only `aiohttp.ClientError` and `asyncio.TimeoutError` are
caught at the fetch-and-cache boundary; for every page on which the makaan
extraction raises, a cache-missing `scrape_properties` call propagates that
exact exception to its caller unhandled. -/
theorem C1_adapter_raise_propagates (city : String) (cache : CacheAssoc) (now : Nat)
    (page : Page) (e : String)
    (hmiss : cacheMiss cache (cacheKeyOf "makaan" city) now)
    (hraise : scrapeMakaan page.mkListings = .error e) :
    scrapeProperties "makaan" city cache now (.success page) = .error e := by
  apply scrapeProperties_raise "makaan" city cache now page e (by decide) hmiss
  rw [extractRecords_makaan, hraise]

/-- C1, witness for the amended theorem at a concrete page whose price cell
lacks the val span. -/
theorem C1_adapter_raise_propagates_witness :
    scrapeProperties "makaan" "delhi" [] 0 (.success ⟨[], [mkBadValListing], []⟩)
      = .error "AttributeError (span val missing)" :=
  C1_adapter_raise_propagates "delhi" [] 0 ⟨[], [mkBadValListing], []⟩
    "AttributeError (span val missing)" rfl rfl

/-- C2, counterexample: a transport failure and a successful fetch of a page
with zero listings both make `scrape_properties` return the empty list: the
returned values are equal, so the failure outcome is not distinguishable from
a successful empty result through the returned value. -/
theorem C2_counterexample :
    (scrapeProperties "magicbricks" "pune" [] 0 (.failure "timeout")).map (fun r => r.records)
      = .ok []
    ∧ (scrapeProperties "magicbricks" "pune" [] 0 (.success emptyPage)).map (fun r => r.records)
      = .ok [] := ⟨rfl, rfl⟩

/-- C2, amended: on transport error, timeout, or non-success status, a
cache-missing `scrape_properties` call returns the plain empty list (the same
value a successful empty fetch returns, not a distinguishable failed outcome),
logs the error with the source name, and stores nothing in the cache, so the
cache is unchanged and a later resolution fetches afresh. -/
theorem C2_failure_returns_empty (website city : String) (cache : CacheAssoc) (now : Nat)
    (msg : String) (hw : website ∈ validWebsites)
    (hmiss : cacheMiss cache (cacheKeyOf website city) now) :
    scrapeProperties website city cache now (.failure msg)
      = .ok { records := [], cache := cache, fetched := true,
              logged := some (errorLogMsg website msg) } :=
  scrapeProperties_failure website city cache now msg hw hmiss

/-- C2, witness: a concrete timed-out makaan fetch. -/
theorem C2_failure_returns_empty_witness :
    scrapeProperties "makaan" "mumbai" [] 5 (.failure "ConnectionError")
      = .ok { records := [], cache := [], fetched := true,
              logged := some "Error scraping Makaan: ConnectionError" } :=
  C2_failure_returns_empty "makaan" "mumbai" [] 5 "ConnectionError" (by decide) rfl

/-- C3, counterexample: the first makaan container is missing its price value
(the val span of its price cell matches nothing), and the claim says it
contributes no record while other containers are unaffected; in the code the
extraction raises instead, so the well-formed second container loses its
record too. -/
theorem C3_counterexample :
    scrapeMakaan [mkBadValListing, mkGoodListing] = .error "AttributeError (span val missing)"
    ∧ scrapeMakaan [mkGoodListing] = .ok [mkGoodRec] := ⟨rfl, rfl⟩

/-- C3, amended: when a container misses one of the three fields as a whole
selector family (no owner nodes, no price cells, or no title nodes) and every
node bundle that is present is internally complete (otherwise the
comprehensions raise before the zip), the positional zip drops the container:
it contributes no record, and the records of the other containers are exactly
those produced without it; every emitted record is a complete triple by
construction of the zip. -/
theorem C3_partial_triple_exclusion :
    (∀ (l1 l2 : List MbListing) (c : MbListing),
      (∀ ad ∈ c.ads, ad.name.isSome) →
      (c.ads = [] ∨ c.priceAmounts = [] ∨ c.titles = []) →
      scrapeMagicbricks (l1 ++ c :: l2) = scrapeMagicbricks (l1 ++ l2))
    ∧ (∀ (l1 l2 : List MkListing) (c : MkListing),
      (∀ cell ∈ c.priceCells, cell.val.isSome ∧ cell.unit.isSome) →
      (∀ s ∈ c.sellerInfos, s.sellerName.isSome) →
      (c.sellerInfos = [] ∨ c.priceCells = []) →
      scrapeMakaan (l1 ++ c :: l2) = scrapeMakaan (l1 ++ l2)) := by
  constructor
  · intro l1 l2 c hads h
    rw [scrapeMagicbricks_eq, scrapeMagicbricks_eq,
      mapM_flatten_skip extractMbListing l1 l2 c (extractMbListing_empty c hads h)]
  · intro l1 l2 c hcells hsellers h
    have hc : extractMkListing c = .ok [] := by
      rcases h with h | h
      · exact extractMkListing_sellerless c h hcells
      · exact extractMkListing_cellless c h hsellers
    rw [scrapeMakaan_eq, scrapeMakaan_eq, mapM_flatten_skip extractMkListing l1 l2 c hc]

/-- C3, witness: a magicbricks container without price nodes and a makaan
container without price cells each drop out without affecting the good
container next to them. -/
theorem C3_partial_triple_exclusion_witness :
    scrapeMagicbricks ([mbGoodListing] ++ mbNoPriceListing :: [])
      = scrapeMagicbricks ([mbGoodListing] ++ [])
    ∧ scrapeMakaan ([mkGoodListing] ++ mkNoCellsListing :: [])
      = scrapeMakaan ([mkGoodListing] ++ []) :=
  ⟨C3_partial_triple_exclusion.1 [mbGoodListing] [] mbNoPriceListing (by decide)
      (Or.inr (Or.inl rfl)),
    C3_partial_triple_exclusion.2 [mkGoodListing] [] mkNoCellsListing (by decide) (by decide)
      (Or.inr rfl)⟩

/-- C7, counterexample: the magicbricks owner normalization is the Python
character-set `lstrip`, not a prefix strip: for the owner text
`Owner: rekha` it also eats the leading name characters that lie in the set
and yields `kha`, whereas stripping the label as a prefix and leaving the rest
of the name intact would yield `rekha`. -/
theorem C7_counterexample :
    scrapeMagicbricks [⟨[⟨some "Owner: rekha"⟩], ["₹60 Lac"], ["Palm Grove"]⟩]
      = .ok [⟨"kha", "₹60 Lac", "Palm Grove"⟩]
    ∧ ("kha" : String) ≠ "rekha" := ⟨rfl, by decide⟩

/-- C7, amended: the magicbricks adapter removes from the owner text every
leading character of the set of `"Owner: "` (Python lstrip character-set
semantics, which removes the label but can also remove leading characters of
the name itself); the makaan adapter removes every `BUILDER0` marker from the
owner, joins the price value and its unit with a space, and puts the currency
symbol in front. -/
theorem C7_text_normalization (t v title ow pn pv pu : String) :
    scrapeMagicbricks [⟨[⟨some t⟩], [v], [title]⟩]
      = .ok [⟨pyLstrip ownerStripChars t, v, title⟩]
    ∧ scrapeMakaan [⟨[⟨ow, some pn⟩], [⟨some pv, some pu⟩]⟩]
      = .ok [⟨pyReplaceBuilder ow, "₹" ++ (pv ++ " " ++ pu), pn⟩] := ⟨rfl, rfl⟩

/-- C4, counterexample: a first resolution that succeeds with zero records
stores the empty list, but a second resolution 100 time-units later (well
inside the ttl) fails the truthiness test, fetches again, and can even return
different records: the two calls are not served by one fetch and need not
return identical sequences. -/
theorem C4_counterexample :
    scrapeProperties "magicbricks" "pune" [] 0 (.success emptyPage)
      = .ok ⟨[], [("magicbricks_pune", [], 0)], true, none⟩
    ∧ scrapeProperties "magicbricks" "pune" [("magicbricks_pune", [], 0)] 100
        (.success mbGoodPage)
      = .ok ⟨[mbGoodRec], [("magicbricks_pune", [mbGoodRec], 100)], true, none⟩ := ⟨rfl, rfl⟩

/-- C4, amended: when the first resolution of a (source, locality) pair misses
the cache and returns a nonempty record list, a second resolution within the
ttl returns exactly that list from the cache with no network access, so the
pair of calls performs exactly one underlying fetch; the guarantee does not
cover a first resolution whose record list is empty. -/
theorem C4_cache_idempotence_nonempty (website city : String) (cache : CacheAssoc)
    (t0 t1 : Nat) (fetch1 fetch2 : FetchResult) (r1 : ScrapeOk)
    (hmiss : cacheMiss cache (cacheKeyOf website city) t0)
    (h1 : scrapeProperties website city cache t0 fetch1 = .ok r1)
    (hne : r1.records ≠ [])
    (ht : t1 < t0 + cacheTtl) :
    r1.fetched = true
    ∧ scrapeProperties website city r1.cache t1 fetch2
        = .ok { records := r1.records, cache := r1.cache, fetched := false, logged := none } := by
  obtain ⟨hf, hcase⟩ := scrapeProperties_miss_inv website city cache t0 fetch1 r1 hmiss h1
  rcases hcase with ⟨hrec, _⟩ | hcache
  · exact absurd hrec hne
  · refine ⟨hf, ?_⟩
    rw [hcache]
    exact scrapeProperties_hit website city _ t1 fetch2 r1.records
      (cacheGet_set_live cache (cacheKeyOf website city) r1.records t0 t1 ht) hne

/-- C4, witness: a cold makaan resolution at time 0 followed by a resolution
at time 100 that is served from the cache. -/
theorem C4_cache_idempotence_nonempty_witness :
    (⟨[mkGoodRec], cacheSet [] (cacheKeyOf "makaan" "pune") [mkGoodRec] 0, true, none⟩
        : ScrapeOk).fetched = true
    ∧ scrapeProperties "makaan" "pune"
        (⟨[mkGoodRec], cacheSet [] (cacheKeyOf "makaan" "pune") [mkGoodRec] 0, true, none⟩
          : ScrapeOk).cache 100 (.failure "second")
        = .ok { records := [mkGoodRec],
                cache := cacheSet [] (cacheKeyOf "makaan" "pune") [mkGoodRec] 0,
                fetched := false, logged := none } :=
  C4_cache_idempotence_nonempty "makaan" "pune" [] 0 100
    (.success mkGoodPage) (.failure "second")
    ⟨[mkGoodRec], cacheSet [] (cacheKeyOf "makaan" "pune") [mkGoodRec] 0, true, none⟩
    rfl rfl (by decide) (by decide)

/-- C9, counterexample: with a live cache entry holding the empty list (stored
at time 0, resolved at time 10, ttl 3600), the claim says the entry is
returned with no network access; the code fails the truthiness test, fetches,
and returns the fresh extraction instead. -/
theorem C9_counterexample :
    cacheGet [("makaan_pune", [], 0)] "makaan_pune" 10 = some []
    ∧ scrapeProperties "makaan" "pune" [("makaan_pune", [], 0)] 10 (.success mkGoodPage)
        = .ok ⟨[mkGoodRec], [("makaan_pune", [mkGoodRec], 10)], true, none⟩ := ⟨rfl, rfl⟩

/-- C9, amended: a resolution after the ttl has elapsed does not return the
stale entry: it fetches afresh, runs the extraction, and replaces the entry
with a fresh one; within the ttl a nonempty entry is returned with no network
access, while an empty entry is never served even within the ttl. -/
theorem C9_cache_expiry :
    (∀ (website city : String) (v : List ListingRecord) (t0 now : Nat) (page : Page)
        (d : List ListingRecord),
      website ∈ validWebsites → t0 + cacheTtl ≤ now →
      extractRecords website page = .ok d →
      scrapeProperties website city [(cacheKeyOf website city, v, t0)] now (.success page)
        = .ok ⟨d, [(cacheKeyOf website city, d, now)], true, none⟩)
    ∧ (∀ (website city : String) (v : List ListingRecord) (t0 now : Nat)
        (fetch : FetchResult),
      v ≠ [] → now < t0 + cacheTtl →
      scrapeProperties website city [(cacheKeyOf website city, v, t0)] now fetch
        = .ok ⟨v, [(cacheKeyOf website city, v, t0)], false, none⟩) := by
  constructor
  · intro website city v t0 now page d hw hexp hex
    have hmiss : cacheMiss [(cacheKeyOf website city, v, t0)] (cacheKeyOf website city) now := by
      simp [cacheMiss, cacheGet, List.lookup, Nat.not_lt_of_le hexp, truthy]
    have h := scrapeProperties_success website city [(cacheKeyOf website city, v, t0)]
      now page d hw hmiss hex
    rw [h]
    simp [cacheSet, List.filter]
  · intro website city v t0 now fetch hv ht
    have hget : cacheGet [(cacheKeyOf website city, v, t0)] (cacheKeyOf website city) now
        = some v := by
      simp [cacheGet, List.lookup, ht]
    exact scrapeProperties_hit website city _ now fetch v hget hv

/-- C9, witness: an expired magicbricks entry is replaced by the fresh
extraction, and a live nonempty entry is served without fetching. -/
theorem C9_cache_expiry_witness :
    scrapeProperties "magicbricks" "pune"
        [(cacheKeyOf "magicbricks" "pune", [mkGoodRec], 0)] 4000 (.success mbGoodPage)
      = .ok ⟨[mbGoodRec], [(cacheKeyOf "magicbricks" "pune", [mbGoodRec], 4000)], true, none⟩
    ∧ scrapeProperties "magicbricks" "pune"
        [(cacheKeyOf "magicbricks" "pune", [mbGoodRec], 0)] 100 (.failure "net down")
      = .ok ⟨[mbGoodRec], [(cacheKeyOf "magicbricks" "pune", [mbGoodRec], 0)], false, none⟩ :=
  ⟨C9_cache_expiry.1 "magicbricks" "pune" [mkGoodRec] 0 4000 mbGoodPage [mbGoodRec]
      (by decide) (by decide) rfl,
    C9_cache_expiry.2 "magicbricks" "pune" [mbGoodRec] 0 100 (.failure "net down")
      (by decide) (by decide)⟩

/-- C10: a successful fetch with zero extracted records stores the empty list
in the cache, but every later lookup of that key fails the truthiness test
(the live entry equals the empty list, an expired one is absent), so a
subsequent successful resolution fetches and extracts afresh even inside the
ttl window: a no-listings result is never served from the cache. -/
theorem C10_empty_result_never_served (website city : String) (cache : CacheAssoc)
    (t0 : Nat) (page : Page)
    (hw : website ∈ validWebsites)
    (hmiss : cacheMiss cache (cacheKeyOf website city) t0)
    (hempty : extractRecords website page = .ok []) :
    scrapeProperties website city cache t0 (.success page)
      = .ok ⟨[], cacheSet cache (cacheKeyOf website city) [] t0, true, none⟩
    ∧ (∀ t1, cacheMiss (cacheSet cache (cacheKeyOf website city) [] t0)
        (cacheKeyOf website city) t1)
    ∧ (∀ (t1 : Nat) (page2 : Page) (d2 : List ListingRecord),
        extractRecords website page2 = .ok d2 →
        scrapeProperties website city (cacheSet cache (cacheKeyOf website city) [] t0) t1
            (.success page2)
          = .ok ⟨d2, cacheSet (cacheSet cache (cacheKeyOf website city) [] t0)
                (cacheKeyOf website city) d2 t1, true, none⟩) := by
  have hmiss2 : ∀ t1, cacheMiss (cacheSet cache (cacheKeyOf website city) [] t0)
      (cacheKeyOf website city) t1 := by
    intro t1
    by_cases ht : t1 < t0 + cacheTtl
    · simp [cacheMiss, cacheGet, cacheSet, List.lookup, ht, truthy]
    · simp [cacheMiss, cacheGet, cacheSet, List.lookup, ht, truthy]
  refine ⟨scrapeProperties_success website city cache t0 page [] hw hmiss hempty,
    hmiss2, ?_⟩
  intro t1 page2 d2 hex2
  exact scrapeProperties_success website city _ t1 page2 d2 hw (hmiss2 t1) hex2

/-- C10, witness: a magicbricks page with no listings is cached as the empty
list at time 0; at time 100 the key still misses and a fresh successful fetch
extracts and stores anew. -/
theorem C10_empty_result_never_served_witness :
    scrapeProperties "magicbricks" "pune" [] 0 (.success emptyPage)
      = .ok ⟨[], cacheSet [] (cacheKeyOf "magicbricks" "pune") [] 0, true, none⟩
    ∧ cacheMiss (cacheSet [] (cacheKeyOf "magicbricks" "pune") [] 0)
        (cacheKeyOf "magicbricks" "pune") 100
    ∧ scrapeProperties "magicbricks" "pune"
        (cacheSet [] (cacheKeyOf "magicbricks" "pune") [] 0) 100 (.success mbGoodPage)
      = .ok ⟨[mbGoodRec],
             cacheSet (cacheSet [] (cacheKeyOf "magicbricks" "pune") [] 0)
               (cacheKeyOf "magicbricks" "pune") [mbGoodRec] 100, true, none⟩ := by
  have h := C10_empty_result_never_served "magicbricks" "pune" [] 0 emptyPage
    (by decide) rfl rfl
  exact ⟨h.1, h.2.1 100, h.2.2 100 mbGoodPage [mbGoodRec] rfl⟩

/-- C5: when source A misses the cache and fails with a transport error while
source B succeeds, the run completes (partial success, not a fault), the
combined result is exactly the record sequence of B, the failure of A is the
one logged message, and the sink receives the combined sequence. -/
theorem C5_failure_isolation (A B city : String) (cache : CacheAssoc) (now : Nat)
    (fetches : String → FetchResult) (msgA : String) (pageB : Page)
    (recsB : List ListingRecord)
    (hA : A ∈ validWebsites) (hB : B ∈ validWebsites)
    (hexp : expandWebsites [A, B] = [A, B])
    (hmA : cacheMiss cache (cacheKeyOf A city) now)
    (hmB : cacheMiss cache (cacheKeyOf B city) now)
    (hfA : fetches A = .failure msgA)
    (hfB : fetches B = .success pageB)
    (hex : extractRecords B pageB = .ok recsB) :
    ∃ out, scrapePropertiesParallel [A, B] city cache now fetches = .ok out
      ∧ out.combined = recsB
      ∧ out.logs = [errorLogMsg A msgA]
      ∧ out.csv = toCsv recsB := by
  have hA' : scrapeProperties A city cache now (fetches A)
      = .ok { records := [], cache := cache, fetched := true,
              logged := some (errorLogMsg A msgA) } := by
    rw [hfA]; exact scrapeProperties_failure A city cache now msgA hA hmA
  have hB' : scrapeProperties B city cache now (fetches B)
      = .ok { records := recsB, cache := cacheSet cache (cacheKeyOf B city) recsB now,
              fetched := true, logged := none } := by
    rw [hfB]; exact scrapeProperties_success B city cache now pageB recsB hB hmB hex
  have hrun : scrapePropertiesParallel [A, B] city cache now fetches
      = .ok { perSource := [⟨[], cache, true, some (errorLogMsg A msgA)⟩,
                ⟨recsB, cacheSet cache (cacheKeyOf B city) recsB now, true, none⟩],
              combined := recsB, logs := [errorLogMsg A msgA], csv := toCsv recsB } := by
    simp only [scrapePropertiesParallel, hexp]
    rw [List.mapM_cons, hA', exceptBind_ok, List.mapM_cons, hB', exceptBind_ok,
      List.mapM_nil, exceptPureBind, exceptPureBind, exceptPureBind]
    simp [Pure.pure, Except.pure, List.append_nil]
  exact ⟨_, hrun, rfl, rfl, rfl⟩

/-- C5, fetch table for the witness: magicbricks times out, makaan succeeds. -/
def c5Fetches : String → FetchResult :=
  fun w => if w = "makaan" then .success mkGoodPage else .failure "timeout"

/-- C5, witness: the concrete two-source run with a failing magicbricks and a
succeeding makaan. -/
theorem C5_failure_isolation_witness :
    ∃ out, scrapePropertiesParallel ["magicbricks", "makaan"] "pune" [] 0 c5Fetches = .ok out
      ∧ out.combined = [mkGoodRec]
      ∧ out.logs = [errorLogMsg "magicbricks" "timeout"]
      ∧ out.csv = toCsv [mkGoodRec] :=
  C5_failure_isolation "magicbricks" "makaan" "pune" [] 0 c5Fetches "timeout"
    mkGoodPage [mkGoodRec] (by decide) (by decide) rfl rfl rfl rfl rfl rfl

/-- C6: for every non-raising run, the per-source results line up one-to-one
with the requested sources in registration order, the combined sequence is
their flattening in that order, and a gather model that lets the tasks finish
in any completion order covering all task indices still hands back the
per-source sequences in task-index order: completion order never affects the
output. -/
theorem C6_order_determinism (websites : List String) (city : String) (cache : CacheAssoc)
    (now : Nat) (fetches : String → FetchResult) (out : RunOutcome) (sched : List Nat)
    (hrun : scrapePropertiesParallel websites city cache now fetches = .ok out)
    (hsched : ∀ i, i < out.perSource.length → i ∈ sched) :
    List.Forall₂ (fun w r => scrapeProperties w city cache now (fetches w) = .ok r)
        (expandWebsites websites) out.perSource
    ∧ out.combined = (out.perSource.map (·.records)).flatten
    ∧ gatherResults (out.perSource.map (·.records)) sched
        = out.perSource.map (·.records) := by
  obtain ⟨results, hm, hout⟩ := runParallel_ok_inv websites city cache now fetches out hrun
  subst hout
  refine ⟨mapM_ok_forall₂ hm, rfl, ?_⟩
  apply gatherResults_eq
  intro i hi
  apply hsched
  simpa using hi

/-- C6, fetch table for the witness: each source resolves to its own page. -/
def c6Fetches : String → FetchResult :=
  fun w => if w = "makaan" then .success mkGoodPage else .success mbGoodPage

/-- C6, per-source results of the witness run. -/
def c6Out : RunOutcome :=
  { perSource := [⟨[mbGoodRec], [("magicbricks_pune", [mbGoodRec], 0)], true, none⟩,
      ⟨[mkGoodRec], [("makaan_pune", [mkGoodRec], 0)], true, none⟩],
    combined := [mbGoodRec, mkGoodRec], logs := [],
    csv := toCsv [mbGoodRec, mkGoodRec] }

/-- C6, witness: a two-source run in which the completion schedule finishes the
second task first, with the combined output still in registration order. -/
theorem C6_order_determinism_witness :
    List.Forall₂ (fun w r => scrapeProperties w "pune" [] 0 (c6Fetches w) = .ok r)
        (expandWebsites ["magicbricks", "makaan"]) c6Out.perSource
    ∧ c6Out.combined = (c6Out.perSource.map (·.records)).flatten
    ∧ gatherResults (c6Out.perSource.map (·.records)) [1, 0]
        = c6Out.perSource.map (·.records) :=
  C6_order_determinism ["magicbricks", "makaan"] "pune" [] 0 c6Fetches c6Out [1, 0]
    rfl (by intro i hi; have h2 : i < 2 := hi; interval_cases i <;> decide)

/-- C8, counterexample: a run whose only source fails still invokes the sink,
but the written text is a single newline: pandas cannot infer the column
names from an empty record list, so the file does not consist of the header
row `owner,price,property_name` followed by data rows as the claim states. -/
theorem C8_counterexample :
    scrapePropertiesParallel ["magicbricks"] "pune" [] 0 (fun _ => .failure "timeout")
      = .ok { perSource := [⟨[], [], true, some "Error scraping Magicbricks: timeout"⟩],
              combined := [], logs := ["Error scraping Magicbricks: timeout"], csv := "\n" }
    ∧ ("\n" : String) ≠ "owner,price,property_name\n" := ⟨rfl, by decide⟩

/-- C8, amended: the sink is always invoked — even a run in which every
requested source fails still completes and writes; when the combined sequence
is nonempty the written text is the header row followed by one row per record,
and when it is empty the written text is a single newline with no header. -/
theorem C8_sink_always_invoked :
    (∀ (websites : List String) (city : String) (cache : CacheAssoc) (now : Nat)
        (fetches : String → FetchResult),
      (∀ w ∈ expandWebsites websites, w ∈ validWebsites) →
      (∀ w ∈ expandWebsites websites, cacheMiss cache (cacheKeyOf w city) now) →
      (∀ w ∈ expandWebsites websites, ∃ m, fetches w = .failure m) →
      ∃ out, scrapePropertiesParallel websites city cache now fetches = .ok out
        ∧ out.combined = [] ∧ out.csv = "\n")
    ∧ (∀ (websites : List String) (city : String) (cache : CacheAssoc) (now : Nat)
        (fetches : String → FetchResult) (out : RunOutcome),
      scrapePropertiesParallel websites city cache now fetches = .ok out →
      out.csv = if out.combined.isEmpty then "\n"
        else "owner,price,property_name\n" ++ String.join (out.combined.map recordCsvRow)) := by
  constructor
  · intro websites city cache now fetches hv hm hf
    obtain ⟨results, hres, hall⟩ := mapM_scrape_all_fail city cache now fetches
      (expandWebsites websites) hv hm hf
    have hflat := flatten_nil_of_all_nil results hall
    refine ⟨{ perSource := results, combined := [],
              logs := results.filterMap (·.logged), csv := "\n" }, ?_, rfl, rfl⟩
    simp only [scrapePropertiesParallel]
    rw [hres, exceptBind_ok, hflat]
    rfl
  · intro websites city cache now fetches out hrun
    obtain ⟨results, hm, hout⟩ := runParallel_ok_inv websites city cache now fetches out hrun
    subst hout
    rfl

/-- C8, outcome of the successful single-source witness run. -/
def c8RunOut : RunOutcome :=
  { perSource := [⟨[mkGoodRec], [("makaan_pune", [mkGoodRec], 0)], true, none⟩],
    combined := [mkGoodRec], logs := [], csv := toCsv [mkGoodRec] }

/-- C8, witness: an all-failing run still writes the headerless newline, and a
successful run writes the header followed by its rows. -/
theorem C8_sink_always_invoked_witness :
    (∃ out, scrapePropertiesParallel ["makaan"] "pune" [] 0 (fun _ => .failure "oops")
        = .ok out ∧ out.combined = [] ∧ out.csv = "\n")
    ∧ c8RunOut.csv = (if c8RunOut.combined.isEmpty then "\n"
        else "owner,price,property_name\n" ++ String.join (c8RunOut.combined.map recordCsvRow)) :=
  ⟨C8_sink_always_invoked.1 ["makaan"] "pune" [] 0 (fun _ => .failure "oops")
      (by decide) (fun w _ => rfl) (fun w _ => ⟨"oops", rfl⟩),
    C8_sink_always_invoked.2 ["makaan"] "pune" [] 0 (fun _ => .success mkGoodPage)
      c8RunOut rfl⟩

end Scraper
